import Mathlib

/-!
Verification of the ML-e2e-challenge repository's specified behaviour.

The development shallowly embeds the relevant Python code:
* `src/utils/data_functions.py` (`preprocess_features`) over an explicit
  DataFrame model (ordered named columns of mixed int/string values),
  both as a pure function and as a heap-passing function that models
  pandas aliasing (`copy()` plus `inplace=True` mutation);
* `src/cli/main.py` (the `train`, `validation` and `run-sql` commands) as
  trace-producing functions over oracles for the score returned by
  `validation_model.validate()`, the filesystem and the database manager;
* the pipeline-building helpers of `src/ml_pipelines/pipeline_connection.py`,
  which are exercised by the repository's tests but whose source is not part
  of the three files under verification; these are modelled from the spec
  (each such definition is marked `Modelled from the spec:`).
-/

namespace MLE2E

/-- A pandas cell value: the columns the claims touch hold integers
(`SibSp`, `Parch`, counts) or free text (`Cabin`, `Name`, `Ticket`). -/
inductive Value where
  | int : Int → Value
  | str : String → Value
deriving DecidableEq, Repr

/-- A pandas DataFrame: an ordered list of named columns. -/
structure DataFrame where
  cols : List (String × List Value)
deriving DecidableEq, Repr

/-- Column lookup on the raw column list (first column with the name). -/
def getColList (l : List (String × List Value)) (name : String) : Option (List Value) :=
  (l.find? (fun c => c.1 = name)).map Prod.snd

/-- `df[name]` : the values of the first column called `name`. -/
def getCol (df : DataFrame) (name : String) : Option (List Value) :=
  getColList df.cols name

/-- Whether the frame has a column with the given name. -/
def hasCol (df : DataFrame) (name : String) : Bool :=
  df.cols.any (fun c => c.1 = name)

/-- `df[name]` as an expression: missing columns raise `KeyError`. -/
def getColE (df : DataFrame) (name : String) : Except String (List Value) :=
  match getCol df name with
  | some v => .ok v
  | none => .error ("KeyError: " ++ name)

/-- `df.drop(names, axis=1)` : removes every column whose name is listed;
pandas raises `KeyError` when any listed label is absent. -/
def dropCols (df : DataFrame) (names : List String) : Except String DataFrame :=
  if names.all (fun n => hasCol df n) then
    .ok ⟨df.cols.filter (fun c => !(names.contains c.1))⟩
  else
    .error "KeyError: labels not found in axis"

/-- Column assignment on the raw list: replace every column with the name
if one exists, otherwise append a new column at the end (pandas
`df[name] = values`). -/
def setColList (l : List (String × List Value)) (name : String) (v : List Value) :
    List (String × List Value) :=
  if l.any (fun c => c.1 = name) then
    l.map (fun c => if c.1 = name then (name, v) else c)
  else
    l ++ [(name, v)]

/-- `df[name] = values`. -/
def setCol (df : DataFrame) (name : String) (v : List Value) : DataFrame :=
  ⟨setColList df.cols name v⟩

/-- Element-wise `+` of two cell values, as pandas defines it on the column
dtypes that occur here (ints add, strings concatenate, mixes raise). -/
def Value.add : Value → Value → Option Value
  | .int a, .int b => some (.int (a + b))
  | .str a, .str b => some (.str (a ++ b))
  | _, _ => none

/-- Element-wise series addition; pandas aligns positionally here (both
series come from the same frame), and a length mismatch cannot happen
inside one frame, so it is modelled as a failure. -/
def seriesAdd : List Value → List Value → Option (List Value)
  | [], [] => some []
  | a :: as, b :: bs =>
      match Value.add a b, seriesAdd as bs with
      | some v, some rest => some (v :: rest)
      | _, _ => none
  | _, _ => none

/-- The number of rows of a frame (pandas keeps every column the same
length; the model reads it off the first column). -/
def numRows (df : DataFrame) : Nat :=
  match df.cols with
  | [] => 0
  | c :: _ => c.2.length

/-- `df.loc[mask, col] = v` on one column: overwrite the masked entries. -/
def maskAssign (col : List Value) (mask : List Bool) (v : Value) : List Value :=
  List.zipWith (fun old m => if m then v else old) col mask

/-- A rectangular frame: every column has `r` rows (a pandas invariant). -/
def Rect (df : DataFrame) (r : Nat) : Prop :=
  ∀ c ∈ df.cols, c.2.length = r

/-- The identifier/free-text columns `preprocess_features` drops. -/
def droppedNames : List String := ["Cabin", "PassengerId", "Name", "Ticket"]

/-- `preprocess_features` from `src/utils/data_functions.py`, value-level:
drop the identifier columns, add `FamilySize = SibSp + Parch`, set
`IsAlone` to `0` and then to `1` on the rows where `FamilySize == 0`.
(The `data.copy()` line is the identity under value semantics; the heap
model below accounts for it.) -/
def preprocess_features (data : DataFrame) : Except String DataFrame :=
  match dropCols data droppedNames with
  | .error e => .error e
  | .ok t0 =>
    match getColE t0 "SibSp" with
    | .error e => .error e
    | .ok sib =>
      match getColE t0 "Parch" with
      | .error e => .error e
      | .ok par =>
        match seriesAdd sib par with
        | none => .error "TypeError: unsupported operand types"
        | some fam =>
          let t1 := setCol t0 "FamilySize" fam
          let t2 := setCol t1 "IsAlone" (List.replicate (numRows t1) (Value.int 0))
          match getColE t2 "FamilySize", getColE t2 "IsAlone" with
          | .ok famCol, .ok alone =>
            let mask := famCol.map (fun v => decide (v = Value.int 0))
            .ok (setCol t2 "IsAlone" (maskAssign alone mask (Value.int 1)))
          | .error e, _ => .error e
          | _, .error e => .error e

/-- A heap of pandas frames; a Python variable holding a frame is an index
into it, so aliasing and in-place mutation are observable. -/
abbrev Heap : Type := List DataFrame

/-- Dereference a frame variable. -/
def heapRead (h : Heap) (r : Nat) : Except String DataFrame :=
  match h[r]? with
  | some d => .ok d
  | none => .error "invalid reference"

/-- In-place mutation of the frame a variable points to. -/
def heapWrite (h : Heap) (r : Nat) (df : DataFrame) : Heap :=
  List.set h r df

/-- `preprocess_features`, heap-level: `titanic_data = data.copy()`
allocates a fresh frame, and each subsequent statement (the
`inplace=True` drop, the three column assignments) mutates that fresh
frame in place, never the caller's frame `r`. Returns the heap after the
call and the reference to the result frame. -/
def preprocess_features_heap (h : Heap) (r : Nat) : Except String (Heap × Nat) :=
  match heapRead h r with
  | .error e => .error e
  | .ok data =>
    let rc := List.length h
    let h := h ++ [data]
    match dropCols data droppedNames with
    | .error e => .error e
    | .ok t0 =>
      let h := heapWrite h rc t0
      match getColE t0 "SibSp" with
      | .error e => .error e
      | .ok sib =>
        match getColE t0 "Parch" with
        | .error e => .error e
        | .ok par =>
          match seriesAdd sib par with
          | none => .error "TypeError: unsupported operand types"
          | some fam =>
            let t1 := setCol t0 "FamilySize" fam
            let h := heapWrite h rc t1
            let t2 := setCol t1 "IsAlone" (List.replicate (numRows t1) (Value.int 0))
            let h := heapWrite h rc t2
            match getColE t2 "FamilySize", getColE t2 "IsAlone" with
            | .ok famCol, .ok alone =>
              let mask := famCol.map (fun v => decide (v = Value.int 0))
              let t3 := setCol t2 "IsAlone" (maskAssign alone mask (Value.int 1))
              .ok (heapWrite h rc t3, rc)
            | .error e, _ => .error e
            | _, .error e => .error e

/-! ## CLI commands (`src/cli/main.py`)

The commands are embedded as trace-producing functions. Python floats are
modelled as rationals, an absent `--acc-threshold` as `none`; the score
returned by `validation_model.validate()`, the filesystem and the database
manager are oracle parameters. -/

/-- An observable action of a CLI command. -/
inductive Event where
  | echo : String → Event
  | abortCmd : Event
  | exitCmd : Event
  | trainCall : List String → Option ℚ → Event
  | validateCall : Event
  | runMakefileCall : String → Event
  | connectCall : Event
  | fetchCall : String → Event
  | closeCall : Event
deriving DecidableEq, Repr

/-- The message both threshold checks print. -/
def invalidThresholdMsg : String :=
  "Invalid input. Please enter a float number between 0 and 1."

/-- The `train` command: trains without a threshold when none is given,
trains with it when it lies in `[0,1]`, otherwise echoes and aborts. -/
def train_cmd (models : List String) (threshold : Option ℚ) : List Event :=
  match threshold with
  | none => [Event.trainCall models none]
  | some th =>
    if 0 ≤ th ∧ th ≤ 1 then
      [Event.trainCall models (some th)]
    else
      [Event.echo invalidThresholdMsg, Event.abortCmd]

/-- The `validation` command: always calls `validation_model.validate()`
first; with a threshold in `[0,1]` it retrains via `run_makefile("train")`
exactly when the score is strictly below it, with a threshold outside
`[0,1]` it echoes and aborts. -/
def validation_cmd (threshold : Option ℚ) (score : ℚ) : List Event :=
  let t := [Event.validateCall]
  match threshold with
  | none => t
  | some th =>
    if 0 ≤ th ∧ th ≤ 1 then
      if score < th then
        t ++ [Event.echo "The model is not good enough. Training a new model.",
              Event.runMakefileCall "train"]
      else t
    else
      t ++ [Event.echo invalidThresholdMsg, Event.abortCmd]

/-- Behaviour of the `PostgreSQLManager` oracle: whether `connect()`
raises, and what `fetch_to_dataframe` does on a query (an error message or
the fetched frame rendered by `to_string()`). -/
structure DbBehavior where
  connectErr : Option String
  fetchRes : String → Except String String

/-- The `run-sql` command over a filesystem oracle (path to contents):
a missing file echoes and exits before any database work; otherwise
`connect()` and the query run inside `try/except Exception/finally`, so
any failure is echoed and `close()` always runs. (The single quotes the
source puts around the file name in its messages are elided.) -/
def run_sql_file (fs : String → Option String) (db : DbBehavior)
    (sql_file : String) : List Event :=
  match fs sql_file with
  | none => [Event.echo ("Error: File " ++ sql_file ++ " does not exist."),
             Event.exitCmd]
  | some content =>
    match db.connectErr with
    | some e => [Event.connectCall,
                 Event.echo ("Error executing SQL: " ++ e),
                 Event.closeCall]
    | none =>
      match db.fetchRes content with
      | .error e => [Event.connectCall, Event.fetchCall content,
                     Event.echo ("Error executing SQL: " ++ e),
                     Event.closeCall]
      | .ok data => [Event.connectCall, Event.fetchCall content,
                     Event.echo ("Successfully executed SQL from " ++ sql_file ++ "."),
                     Event.echo data,
                     Event.closeCall]

/-! ## Pipeline building (`src/ml_pipelines/pipeline_connection.py`)

The `PipelineBuilding` class is exercised by
`tests/pipelines/test_pipeline_connection.py` but its source file is not
among the files under verification, so its helpers are modelled from the
spec (sections 4.2, 4.3 and the glossary). -/

/-- The distinct values of a column, first occurrence first (the observed
categories of a categorical column). -/
def distinctsAux (seen : List Value) : List Value → List Value
  | [] => []
  | v :: rest =>
    if seen.contains v then distinctsAux seen rest
    else v :: distinctsAux (v :: seen) rest

/-- Observed categories of a column. -/
def distincts (l : List Value) : List Value := distinctsAux [] l

/-- Number of observed categories. -/
def countDistinct (l : List Value) : Nat := (distincts l).length

/-- Modelled from the spec: `PipelineBuilding._columns_after_processing`
(its source file is not among the files under verification). Spec 4.2:
one-hot expansion "must produce one output column per observed category
per input column, named `<column><category-index>`", column after column
in the given order. -/
def columns_after_processing (data : DataFrame) (categorical_features : List String) :
    List String :=
  categorical_features.flatMap (fun c =>
    (List.range (countDistinct ((getCol data c).getD []))).map
      (fun i => c ++ toString i))

/-- Modelled from the spec (glossary): one-hot encoding maps "each
categorical value to a binary indicator column" — one indicator column per
observed category. -/
def one_hot (vals : List Value) : List (List Value) :=
  (distincts vals).map (fun cat =>
    vals.map (fun v => if v = cat then Value.int 1 else Value.int 0))

/-- Select the named columns of a frame, in order; fails when one is
missing. -/
def selectCols (df : DataFrame) : List String → Option (List (List Value))
  | [] => some []
  | n :: rest =>
    match getCol df n, selectCols df rest with
    | some v, some vs => some (v :: vs)
    | _, _ => none

/-- Modelled from the spec: the column transformer built by
`PipelineBuilding._build_data_processing_pipeline` (its source file is not
among the files under verification). Spec 4.2: per column group an
imputation step then a group-specific encoding step — scaling for numeric
and pass-through for ordinal (both one column in, one column out; the
value-level imputation/scaling statistics are irrelevant to the shape
claims and are modelled as the identity), one-hot expansion for
categorical. Missing selected columns make the transform fail. -/
def column_transformer (numeric ordinal categorical : List String)
    (df : DataFrame) : Option (List (List Value)) :=
  match selectCols df numeric, selectCols df ordinal, selectCols df categorical with
  | some numCols, some ordCols, some catCols =>
      some (numCols ++ ordCols ++ catCols.flatMap one_hot)
  | _, _, _ => none

/-- A stage of a scikit-learn style pipeline. -/
inductive Stage where
  | transformer : String → Stage
  | estimator : String → Stage
deriving DecidableEq, Repr

/-- A scikit-learn style `Pipeline`: an ordered list of stages. -/
structure MlPipeline where
  steps : List Stage
deriving DecidableEq, Repr

/-- A model-registry entry: name, untrained estimator, search space. -/
structure ModelEntry where
  name : String
  model : String
  params : List (String × List String)
deriving DecidableEq, Repr

/-- Python-dict insertion into an association list: overwrite the value of
an existing key, otherwise append the new key at the end. -/
def dictInsert (d : List (String × MlPipeline)) (k : String) (v : MlPipeline) :
    List (String × MlPipeline) :=
  if d.any (fun p => p.1 = k) then
    d.map (fun p => if p.1 = k then (k, v) else p)
  else
    d ++ [(k, v)]

/-- Modelled from the spec: `PipelineBuilding._build_create_model_pipeline`
(its source file is not among the files under verification). Spec 4.3:
"given a ... processing-and-selection pipeline and a registry of named
estimators, returns a mapping from model name to an end-to-end pipeline
chaining the shared processing stage with that estimator". -/
def build_create_model_pipeline (processing : MlPipeline)
    (models : List ModelEntry) : List (String × MlPipeline) :=
  models.foldl
    (fun d m => dictInsert d m.name ⟨processing.steps ++ [Stage.estimator m.model]⟩)
    []

/-! ## Lemmas about the DataFrame operations -/

theorem getColList_cons (c : String × List Value) (cs : List (String × List Value))
    (n : String) :
    getColList (c :: cs) n = if c.1 = n then some c.2 else getColList cs n := by
  by_cases hc : c.1 = n <;> simp [getColList, List.find?_cons, hc]

theorem getColList_eq_none_of_not_any (l : List (String × List Value)) (n : String)
    (h : l.any (fun c => c.1 = n) = false) : getColList l n = none := by
  induction l with
  | nil => rfl
  | cons c cs ih =>
    simp only [List.any_cons, Bool.or_eq_false_iff] at h
    rw [getColList_cons, if_neg (by simpa using h.1), ih h.2]

theorem getColList_filter_not_mem (l : List (String × List Value))
    (names : List String) (n : String) (h : names.contains n = false) :
    getColList (l.filter (fun c => !(names.contains c.1))) n = getColList l n := by
  induction l with
  | nil => rfl
  | cons c cs ih =>
    rw [List.filter_cons]
    by_cases hk : names.contains c.1 = true
    · have hc : c.1 ≠ n := fun hcn => by rw [hcn, h] at hk; exact Bool.noConfusion hk
      rw [if_neg (by simpa using hk), getColList_cons, if_neg hc, ih]
    · have hk' : names.contains c.1 = false := Bool.eq_false_iff.mpr hk
      rw [if_pos (by simpa using hk'), getColList_cons, getColList_cons, ih]

theorem getColList_filter_mem (l : List (String × List Value))
    (names : List String) (n : String) (h : names.contains n = true) :
    getColList (l.filter (fun c => !(names.contains c.1))) n = none := by
  induction l with
  | nil => rfl
  | cons c cs ih =>
    rw [List.filter_cons]
    by_cases hk : names.contains c.1 = true
    · rw [if_neg (by simpa using hk), ih]
    · have hk' : names.contains c.1 = false := Bool.eq_false_iff.mpr hk
      have hc : c.1 ≠ n := fun hcn => by rw [hcn, h] at hk'; exact Bool.noConfusion hk'
      rw [if_pos (by simpa using hk'), getColList_cons, if_neg hc, ih]

theorem getColList_filter_none (l : List (String × List Value))
    (p : String × List Value → Bool) (n : String)
    (h : getColList l n = none) : getColList (l.filter p) n = none := by
  induction l with
  | nil => rfl
  | cons c cs ih =>
    rw [getColList_cons] at h
    by_cases hc : c.1 = n
    · rw [if_pos hc] at h
      exact Option.noConfusion h
    · rw [if_neg hc] at h
      by_cases hp : p c = true
      · rw [List.filter_cons_of_pos hp, getColList_cons, if_neg hc, ih h]
      · rw [List.filter_cons_of_neg (by simpa using hp), ih h]

theorem getColList_map_overwrite (l : List (String × List Value)) (n : String)
    (v : List Value) :
    getColList (l.map (fun c => if c.1 = n then (n, v) else c)) n =
      if l.any (fun c => c.1 = n) then some v else none := by
  induction l with
  | nil => rfl
  | cons c cs ih =>
    by_cases hc : c.1 = n
    · simp [getColList_cons, List.any_cons, hc, ih]
    · have h1 : getColList
          ((if c.1 = n then (n, v) else c) ::
            List.map (fun c => if c.1 = n then (n, v) else c) cs) n =
          getColList (List.map (fun c => if c.1 = n then (n, v) else c) cs) n := by
        rw [if_neg hc, getColList_cons, if_neg hc]
      have h2 : ((c :: cs).any fun c => c.1 = n) = (cs.any fun c => c.1 = n) := by
        simp [hc]
      rw [List.map_cons, h1, ih, h2]

theorem getColList_map_overwrite_ne (l : List (String × List Value)) (n : String)
    (v : List Value) (m : String) (h : m ≠ n) :
    getColList (l.map (fun c => if c.1 = n then (n, v) else c)) m = getColList l m := by
  induction l with
  | nil => rfl
  | cons c cs ih =>
    by_cases hc : c.1 = n
    · simp [getColList_cons, hc, ih, Ne.symm h]
    · simp [getColList_cons, hc, ih]

theorem getColList_append_single_ne (l : List (String × List Value)) (n : String)
    (v : List Value) (m : String) (h : m ≠ n) :
    getColList (l ++ [(n, v)]) m = getColList l m := by
  induction l with
  | nil => simp [getColList, Ne.symm h]
  | cons c cs ih =>
    rw [List.cons_append, getColList_cons, getColList_cons, ih]

theorem getColList_setColList_self (l : List (String × List Value)) (n : String)
    (v : List Value) : getColList (setColList l n v) n = some v := by
  unfold setColList
  by_cases h : l.any (fun c => c.1 = n) = true
  · rw [if_pos h, getColList_map_overwrite, if_pos h]
  · rw [if_neg h]
    induction l with
    | nil => simp [getColList_cons]
    | cons c cs ih =>
      simp only [List.any_cons, Bool.or_eq_true, decide_eq_true_eq, not_or] at h
      rw [List.cons_append, getColList_cons, if_neg (by simpa using h.1)]
      exact ih (by simpa using h.2)

theorem getColList_setColList_ne (l : List (String × List Value)) (n : String)
    (v : List Value) (m : String) (h : m ≠ n) :
    getColList (setColList l n v) m = getColList l m := by
  unfold setColList
  by_cases hany : l.any (fun c => c.1 = n) = true
  · rw [if_pos hany, getColList_map_overwrite_ne l n v m h]
  · rw [if_neg hany, getColList_append_single_ne l n v m h]

theorem getCol_setCol_self (df : DataFrame) (n : String) (v : List Value) :
    getCol (setCol df n v) n = some v :=
  getColList_setColList_self df.cols n v

theorem getCol_setCol_ne (df : DataFrame) (n : String) (v : List Value) (m : String)
    (h : m ≠ n) : getCol (setCol df n v) m = getCol df m :=
  getColList_setColList_ne df.cols n v m h

theorem setColList_ne_nil (l : List (String × List Value)) (n : String)
    (v : List Value) : setColList l n v ≠ [] := by
  unfold setColList
  by_cases h : l.any (fun c => c.1 = n) = true
  · rw [if_pos h]
    cases l with
    | nil => simp at h
    | cons c cs => simp
  · rw [if_neg h]
    simp

theorem getColE_eq_ok (df : DataFrame) (n : String) (v : List Value)
    (h : getCol df n = some v) : getColE df n = .ok v := by
  unfold getColE
  rw [h]

theorem getColE_eq_error (df : DataFrame) (n : String)
    (h : getCol df n = none) : getColE df n = .error ("KeyError: " ++ n) := by
  unfold getColE
  rw [h]

theorem rect_filter (df : DataFrame) (p : String × List Value → Bool) (r : Nat)
    (h : Rect df r) : Rect ⟨df.cols.filter p⟩ r :=
  fun c hc => h c (List.mem_of_mem_filter hc)

theorem rect_setCol (df : DataFrame) (n : String) (v : List Value) (r : Nat)
    (h : Rect df r) (hv : v.length = r) : Rect (setCol df n v) r := by
  intro c hc
  unfold setCol setColList at hc
  by_cases hany : df.cols.any (fun c => c.1 = n) = true
  · rw [if_pos hany] at hc
    obtain ⟨c0, hc0, hc0eq⟩ := List.mem_map.mp hc
    by_cases h0 : c0.1 = n
    · rw [if_pos h0] at hc0eq
      rw [← hc0eq]
      exact hv
    · rw [if_neg h0] at hc0eq
      rw [← hc0eq]
      exact h c0 hc0
  · rw [if_neg hany] at hc
    rcases List.mem_append.mp hc with hmem | hmem
    · exact h c hmem
    · rw [List.mem_singleton.mp hmem]
      exact hv

theorem numRows_of_rect (df : DataFrame) (r : Nat) (h : Rect df r)
    (hne : df.cols ≠ []) : numRows df = r := by
  unfold numRows
  cases hcols : df.cols with
  | nil => exact absurd hcols hne
  | cons c cs => exact h c (hcols ▸ List.mem_cons_self c cs)

theorem getCol_length_of_rect (df : DataFrame) (n : String) (v : List Value)
    (r : Nat) (h : getCol df n = some v) (hr : Rect df r) : v.length = r := by
  unfold getCol getColList at h
  obtain ⟨c, hfind, hsnd⟩ := Option.map_eq_some'.mp h
  rw [← hsnd]
  exact hr c (List.mem_of_find?_eq_some hfind)

theorem seriesAdd_int (a b : List Int) (h : a.length = b.length) :
    seriesAdd (a.map Value.int) (b.map Value.int) =
      some ((List.zipWith (fun x y => x + y) a b).map Value.int) := by
  induction a generalizing b with
  | nil =>
    cases b with
    | nil => rfl
    | cons y ys => exact absurd h (by simp)
  | cons x xs ih =>
    cases b with
    | nil => exact absurd h (by simp)
    | cons y ys =>
      have hlen : xs.length = ys.length := by simpa using h
      simp [seriesAdd, Value.add, ih ys hlen]

theorem maskAssign_replicate (l : List Value) (p : Value → Bool) (r : Nat)
    (hl : l.length = r) (v0 one : Value) :
    maskAssign (List.replicate r v0) (l.map p) one =
      l.map (fun x => if p x then one else v0) := by
  induction l generalizing r with
  | nil =>
    subst hl
    rfl
  | cons x xs ih =>
    cases r with
    | zero => exact absurd hl (by simp)
    | succ k =>
      have hlen : xs.length = k := by simpa using hl
      have ih' := ih k hlen
      simp only [maskAssign] at ih' ⊢
      simp only [List.map_cons, List.replicate_succ, List.zipWith_cons_cons, ih']

theorem dropCols_ok (df : DataFrame) (names : List String)
    (h : names.all (fun n => hasCol df n) = true) :
    dropCols df names = .ok ⟨df.cols.filter (fun c => !(names.contains c.1))⟩ := by
  unfold dropCols
  rw [if_pos h]

theorem dropCols_ok_inv (df : DataFrame) (names : List String) (t0 : DataFrame)
    (h : dropCols df names = .ok t0) :
    t0.cols = df.cols.filter (fun c => !(names.contains c.1)) := by
  unfold dropCols at h
  by_cases hall : names.all (fun n => hasCol df n) = true
  · rw [if_pos hall] at h
    injection h with h2
    rw [← h2]
  · rw [if_neg hall] at h
    exact Except.noConfusion h

theorem preprocess_features_ok (df t0 : DataFrame) (sib par fam : List Value)
    (h1 : dropCols df droppedNames = .ok t0)
    (h2 : getCol t0 "SibSp" = some sib)
    (h3 : getCol t0 "Parch" = some par)
    (h4 : seriesAdd sib par = some fam) :
    preprocess_features df = .ok
      (setCol
        (setCol (setCol t0 "FamilySize" fam) "IsAlone"
          (List.replicate (numRows (setCol t0 "FamilySize" fam)) (Value.int 0)))
        "IsAlone"
        (maskAssign
          (List.replicate (numRows (setCol t0 "FamilySize" fam)) (Value.int 0))
          (fam.map (fun v => decide (v = Value.int 0))) (Value.int 1))) := by
  have hfamE : getColE
      (setCol (setCol t0 "FamilySize" fam) "IsAlone"
        (List.replicate (numRows (setCol t0 "FamilySize" fam)) (Value.int 0)))
      "FamilySize" = .ok fam := by
    apply getColE_eq_ok
    rw [getCol_setCol_ne _ _ _ _ (by decide), getCol_setCol_self]
  have haloneE : getColE
      (setCol (setCol t0 "FamilySize" fam) "IsAlone"
        (List.replicate (numRows (setCol t0 "FamilySize" fam)) (Value.int 0)))
      "IsAlone" =
      .ok (List.replicate (numRows (setCol t0 "FamilySize" fam)) (Value.int 0)) :=
    getColE_eq_ok _ _ _ (getCol_setCol_self _ _ _)
  simp only [preprocess_features, h1, getColE_eq_ok _ _ _ h2, getColE_eq_ok _ _ _ h3,
    h4, hfamE, haloneE]

/-- C2: for every rectangular row set containing the identifier/text
columns `Cabin`, `PassengerId`, `Name`, `Ticket` and integer columns
`SibSp` and `Parch`, `preprocess_features` succeeds and returns a row set
in which those identifier/text columns are gone, a `FamilySize` column
equal to `SibSp + Parch` per row has been added, and an `IsAlone` column
has been added that is `1` exactly in the rows where `FamilySize` is `0`
and `0` in every other row. -/
theorem C2_preprocess_features_contract (df : DataFrame) (R : Nat) (a b : List Int)
    (hrect : Rect df R)
    (hcab : hasCol df "Cabin" = true) (hpid : hasCol df "PassengerId" = true)
    (hname : hasCol df "Name" = true) (htick : hasCol df "Ticket" = true)
    (hs : getCol df "SibSp" = some (a.map Value.int))
    (hp : getCol df "Parch" = some (b.map Value.int)) :
    ∃ out, preprocess_features df = .ok out ∧
      getCol out "Cabin" = none ∧
      getCol out "PassengerId" = none ∧
      getCol out "Name" = none ∧
      getCol out "Ticket" = none ∧
      getCol out "FamilySize" =
        some ((List.zipWith (fun x y => x + y) a b).map Value.int) ∧
      getCol out "IsAlone" =
        some ((List.zipWith (fun x y => x + y) a b).map
          (fun x => if x = 0 then Value.int 1 else Value.int 0)) := by
  have ha : a.length = R := by
    simpa using getCol_length_of_rect df "SibSp" (a.map Value.int) R hs hrect
  have hb : b.length = R := by
    simpa using getCol_length_of_rect df "Parch" (b.map Value.int) R hp hrect
  have hall : droppedNames.all (fun n => hasCol df n) = true := by
    simp only [droppedNames, List.all_cons, List.all_nil, hcab, hpid, hname, htick,
      Bool.and_self, Bool.and_true]
  have hdrop := dropCols_ok df droppedNames hall
  set t0 : DataFrame := ⟨df.cols.filter (fun c => !(droppedNames.contains c.1))⟩
    with ht0
  have hs0 : getCol t0 "SibSp" = some (a.map Value.int) := by
    show getColList _ _ = _
    rw [ht0]
    exact (getColList_filter_not_mem df.cols droppedNames "SibSp" (by decide)).trans hs
  have hp0 : getCol t0 "Parch" = some (b.map Value.int) := by
    show getColList _ _ = _
    rw [ht0]
    exact (getColList_filter_not_mem df.cols droppedNames "Parch" (by decide)).trans hp
  have hadd := seriesAdd_int a b (ha.trans hb.symm)
  have heq := preprocess_features_ok df t0 (a.map Value.int) (b.map Value.int)
    ((List.zipWith (fun x y => x + y) a b).map Value.int) hdrop hs0 hp0 hadd
  set s : List Int := List.zipWith (fun x y => x + y) a b with hsdef
  have hslen : s.length = R := by
    rw [hsdef, List.length_zipWith, ha, hb, Nat.min_self]
  have hrect0 : Rect t0 R := by
    rw [ht0]
    exact rect_filter df _ R hrect
  set t1 : DataFrame := setCol t0 "FamilySize" (s.map Value.int) with ht1
  have hrect1 : Rect t1 R := by
    rw [ht1]
    exact rect_setCol t0 _ _ R hrect0 (by rw [List.length_map, hslen])
  have hnum : numRows t1 = R := by
    apply numRows_of_rect t1 R hrect1
    rw [ht1]
    exact setColList_ne_nil t0.cols _ _
  set t2 : DataFrame := setCol t1 "IsAlone" (List.replicate (numRows t1) (Value.int 0))
    with ht2
  set final : List Value :=
    maskAssign (List.replicate (numRows t1) (Value.int 0))
      ((s.map Value.int).map (fun v => decide (v = Value.int 0))) (Value.int 1)
    with hfinal
  refine ⟨setCol t2 "IsAlone" final, heq, ?_, ?_, ?_, ?_, ?_, ?_⟩
  · rw [getCol_setCol_ne _ _ _ _ (by decide), ht2,
      getCol_setCol_ne _ _ _ _ (by decide), ht1,
      getCol_setCol_ne _ _ _ _ (by decide)]
    show getColList _ _ = _
    rw [ht0]
    exact getColList_filter_mem df.cols droppedNames "Cabin" (by decide)
  · rw [getCol_setCol_ne _ _ _ _ (by decide), ht2,
      getCol_setCol_ne _ _ _ _ (by decide), ht1,
      getCol_setCol_ne _ _ _ _ (by decide)]
    show getColList _ _ = _
    rw [ht0]
    exact getColList_filter_mem df.cols droppedNames "PassengerId" (by decide)
  · rw [getCol_setCol_ne _ _ _ _ (by decide), ht2,
      getCol_setCol_ne _ _ _ _ (by decide), ht1,
      getCol_setCol_ne _ _ _ _ (by decide)]
    show getColList _ _ = _
    rw [ht0]
    exact getColList_filter_mem df.cols droppedNames "Name" (by decide)
  · rw [getCol_setCol_ne _ _ _ _ (by decide), ht2,
      getCol_setCol_ne _ _ _ _ (by decide), ht1,
      getCol_setCol_ne _ _ _ _ (by decide)]
    show getColList _ _ = _
    rw [ht0]
    exact getColList_filter_mem df.cols droppedNames "Ticket" (by decide)
  · rw [getCol_setCol_ne _ _ _ _ (by decide), ht2,
      getCol_setCol_ne _ _ _ _ (by decide), ht1, getCol_setCol_self]
  · rw [getCol_setCol_self, hfinal,
      maskAssign_replicate (s.map Value.int) _ (numRows t1)
        (by rw [List.length_map, hslen, hnum]) (Value.int 0) (Value.int 1),
      List.map_map]
    simp [Function.comp]

/-- Witness for C2: the contract evaluated on a concrete two-row frame. -/
theorem C2_preprocess_features_contract_witness :
    ∃ out, preprocess_features
        ⟨[("Cabin", [Value.str "C1", Value.str "C2"]),
          ("PassengerId", [Value.int 1, Value.int 2]),
          ("Name", [Value.str "a", Value.str "b"]),
          ("Ticket", [Value.str "t", Value.str "u"]),
          ("SibSp", [Value.int 1, Value.int 0]),
          ("Parch", [Value.int 0, Value.int 0]),
          ("Pclass", [Value.int 3, Value.int 1])]⟩ = .ok out ∧
      getCol out "Cabin" = none ∧
      getCol out "PassengerId" = none ∧
      getCol out "Name" = none ∧
      getCol out "Ticket" = none ∧
      getCol out "FamilySize" =
        some ((List.zipWith (fun x y => x + y) [(1 : Int), 0] [(0 : Int), 0]).map
          Value.int) ∧
      getCol out "IsAlone" =
        some ((List.zipWith (fun x y => x + y) [(1 : Int), 0] [(0 : Int), 0]).map
          (fun x => if x = 0 then Value.int 1 else Value.int 0)) :=
  C2_preprocess_features_contract
    ⟨[("Cabin", [Value.str "C1", Value.str "C2"]),
      ("PassengerId", [Value.int 1, Value.int 2]),
      ("Name", [Value.str "a", Value.str "b"]),
      ("Ticket", [Value.str "t", Value.str "u"]),
      ("SibSp", [Value.int 1, Value.int 0]),
      ("Parch", [Value.int 0, Value.int 0]),
      ("Pclass", [Value.int 3, Value.int 1])]⟩
    2 [1, 0] [0, 0] (by unfold Rect; decide) rfl rfl rfl rfl rfl rfl

/-- C5: for every input row set missing any one of the required columns
`Cabin`, `PassengerId`, `Name`, `Ticket`, `SibSp`, `Parch`,
`preprocess_features` raises an error rather than returning a result. -/
theorem C5_preprocess_features_missing_column (df : DataFrame) (n : String)
    (hn : n ∈ ["Cabin", "PassengerId", "Name", "Ticket", "SibSp", "Parch"])
    (h : hasCol df n = false) :
    ∃ msg, preprocess_features df = .error msg := by
  by_cases hd : n ∈ droppedNames
  · have hall : ¬ (droppedNames.all (fun m => hasCol df m) = true) := by
      intro hall
      have := List.all_eq_true.mp hall n hd
      rw [h] at this
      exact Bool.noConfusion this
    have hdrop : dropCols df droppedNames = .error "KeyError: labels not found in axis" := by
      unfold dropCols
      rw [if_neg hall]
    exact ⟨"KeyError: labels not found in axis",
      by simp only [preprocess_features, hdrop]⟩
  · have hnsp : n = "SibSp" ∨ n = "Parch" := by
      simp only [droppedNames, List.mem_cons, List.not_mem_nil, or_false] at hd hn
      tauto
    cases hdc : dropCols df droppedNames with
    | error e => exact ⟨e, by simp only [preprocess_features, hdc]⟩
    | ok t0 =>
      have hnone : getCol df n = none :=
        getColList_eq_none_of_not_any df.cols n h
      have hnone0 : getCol t0 n = none := by
        show getColList _ _ = _
        rw [dropCols_ok_inv df droppedNames t0 hdc]
        exact getColList_filter_none df.cols _ n hnone
      rcases hnsp with hsp | hsp
      · subst hsp
        exact ⟨"KeyError: " ++ "SibSp",
          by simp only [preprocess_features, hdc, getColE_eq_error t0 _ hnone0]⟩
      · subst hsp
        cases hsib : getColE t0 "SibSp" with
        | error e =>
          exact ⟨e, by simp only [preprocess_features, hdc, hsib]⟩
        | ok sib =>
          exact ⟨"KeyError: " ++ "Parch", by
            simp only [preprocess_features, hdc, hsib, getColE_eq_error t0 _ hnone0]⟩

/-- Witness for C5: a frame lacking the `Parch` column makes
`preprocess_features` raise. -/
theorem C5_preprocess_features_missing_column_witness :
    ∃ msg, preprocess_features
        ⟨[("Cabin", [Value.str "C1"]), ("PassengerId", [Value.int 1]),
          ("Name", [Value.str "a"]), ("Ticket", [Value.str "t"]),
          ("SibSp", [Value.int 1])]⟩ = .error msg :=
  C5_preprocess_features_missing_column
    ⟨[("Cabin", [Value.str "C1"]), ("PassengerId", [Value.int 1]),
      ("Name", [Value.str "a"]), ("Ticket", [Value.str "t"]),
      ("SibSp", [Value.int 1])]⟩
    "Parch" (by decide) (by decide)

/-- C10: `preprocess_features` operates on a copy (`data.copy()`): on a
successful call the caller's frame is untouched — the heap cell the
argument points to still holds exactly the original frame, with all its
columns and values, and the returned frame is a different cell. -/
theorem C10_preprocess_features_no_mutation (h : Heap) (r : Nat) (df : DataFrame)
    (h0 : h[r]? = some df) (hp : Heap) (rc : Nat)
    (hok : preprocess_features_heap h r = .ok (hp, rc)) :
    hp[r]? = some df ∧ rc ≠ r := by
  have hr : r < h.length := by
    rcases List.getElem?_eq_some_iff.mp h0 with ⟨hlt, _⟩
    exact hlt
  have hner : h.length ≠ r := Nat.ne_of_gt hr
  have happ : (h ++ [df])[r]? = some df := by
    rw [List.getElem?_append_left hr]
    exact h0
  unfold preprocess_features_heap at hok
  simp only [heapRead, h0] at hok
  cases hdc : dropCols df droppedNames with
  | error e =>
    simp only [hdc] at hok
    simp at hok
  | ok t0 =>
    simp only [hdc] at hok
    cases hsib : getColE t0 "SibSp" with
    | error e =>
      simp only [hsib] at hok
      simp at hok
    | ok sib =>
      simp only [hsib] at hok
      cases hpar : getColE t0 "Parch" with
      | error e =>
        simp only [hpar] at hok
        simp at hok
      | ok par =>
        simp only [hpar] at hok
        cases hadd : seriesAdd sib par with
        | none =>
          simp only [hadd] at hok
          simp at hok
        | some fam =>
          simp only [hadd] at hok
          cases hfc : getColE (setCol (setCol t0 "FamilySize" fam) "IsAlone"
              (List.replicate (numRows (setCol t0 "FamilySize" fam)) (Value.int 0)))
              "FamilySize" with
          | error e =>
            simp only [hfc] at hok
            simp at hok
          | ok famCol =>
            simp only [hfc] at hok
            cases hal : getColE (setCol (setCol t0 "FamilySize" fam) "IsAlone"
                (List.replicate (numRows (setCol t0 "FamilySize" fam)) (Value.int 0)))
                "IsAlone" with
            | error e =>
              simp only [hal] at hok
              simp at hok
            | ok alone =>
              simp only [hal] at hok
              simp only [Except.ok.injEq, Prod.mk.injEq] at hok
              obtain ⟨hh, hrc⟩ := hok
              constructor
              · rw [← hh]
                unfold heapWrite
                rw [List.getElem?_set_ne hner, List.getElem?_set_ne hner,
                  List.getElem?_set_ne hner, List.getElem?_set_ne hner]
                exact happ
              · rw [← hrc]
                exact hner

/-- Witness for C10: the no-mutation property evaluated on a one-frame
heap holding a concrete one-row frame. -/
theorem C10_preprocess_features_no_mutation_witness :
    (([DataFrame.mk [("Cabin", [Value.str "C1"]), ("PassengerId", [Value.int 1]),
        ("Name", [Value.str "a"]), ("Ticket", [Value.str "t"]),
        ("SibSp", [Value.int 1]), ("Parch", [Value.int 0])],
      DataFrame.mk [("SibSp", [Value.int 1]), ("Parch", [Value.int 0]),
        ("FamilySize", [Value.int 1]), ("IsAlone", [Value.int 0])]] : Heap))[0]? =
      some (DataFrame.mk [("Cabin", [Value.str "C1"]), ("PassengerId", [Value.int 1]),
        ("Name", [Value.str "a"]), ("Ticket", [Value.str "t"]),
        ("SibSp", [Value.int 1]), ("Parch", [Value.int 0])]) ∧ 1 ≠ 0 :=
  C10_preprocess_features_no_mutation
    ([DataFrame.mk [("Cabin", [Value.str "C1"]), ("PassengerId", [Value.int 1]),
       ("Name", [Value.str "a"]), ("Ticket", [Value.str "t"]),
       ("SibSp", [Value.int 1]), ("Parch", [Value.int 0])]] : Heap)
    0
    (DataFrame.mk [("Cabin", [Value.str "C1"]), ("PassengerId", [Value.int 1]),
      ("Name", [Value.str "a"]), ("Ticket", [Value.str "t"]),
      ("SibSp", [Value.int 1]), ("Parch", [Value.int 0])])
    rfl
    ([DataFrame.mk [("Cabin", [Value.str "C1"]), ("PassengerId", [Value.int 1]),
        ("Name", [Value.str "a"]), ("Ticket", [Value.str "t"]),
        ("SibSp", [Value.int 1]), ("Parch", [Value.int 0])],
      DataFrame.mk [("SibSp", [Value.int 1]), ("Parch", [Value.int 0]),
        ("FamilySize", [Value.int 1]), ("IsAlone", [Value.int 0])]] : Heap)
    1 rfl

/-- C4: with a threshold inside `[0,1]`, the validation command triggers
retraining (`run_makefile("train")`) exactly when the score is strictly
below the threshold; with no threshold, validation still runs and
retraining is never triggered, whatever the score. -/
theorem C4_validation_retrains_iff_below_threshold (th score : ℚ)
    (h0 : 0 ≤ th) (h1 : th ≤ 1) :
    (Event.runMakefileCall "train" ∈ validation_cmd (some th) score ↔ score < th) ∧
    Event.validateCall ∈ validation_cmd none score ∧
    (∀ t, Event.runMakefileCall t ∉ validation_cmd none score) := by
  refine ⟨?_, ?_, ?_⟩
  · simp only [validation_cmd]
    rw [if_pos ⟨h0, h1⟩]
    by_cases hs : score < th
    · rw [if_pos hs]
      simp [hs]
    · rw [if_neg hs]
      simp [hs]
  · simp [validation_cmd]
  · intro t
    simp [validation_cmd]

/-- Witness for C4: threshold 1/2 with score 1/4. -/
theorem C4_validation_retrains_iff_below_threshold_witness :
    (Event.runMakefileCall "train" ∈ validation_cmd (some (1/2)) (1/4) ↔
      (1/4 : ℚ) < 1/2) ∧
    Event.validateCall ∈ validation_cmd none (1/4) ∧
    (∀ t, Event.runMakefileCall t ∉ validation_cmd none (1/4)) :=
  C4_validation_retrains_iff_below_threshold (1/2) (1/4) (by norm_num) (by norm_num)

/-- C1 counterexample: with threshold 2 (outside `[0,1]`) the validation
command still invokes `validation_model.validate()` — the score is
computed before the threshold check — refuting the claim that neither
training nor validation work is performed. -/
theorem C1_counterexample_validate_still_called :
    Event.validateCall ∈ validation_cmd (some 2) 0 := by
  simp only [validation_cmd]
  have : ¬ ((0 : ℚ) ≤ 2 ∧ (2 : ℚ) ≤ 1) := by norm_num
  rw [if_neg this]
  simp

/-- C1 (amended): for every threshold outside `[0,1]` both commands echo
the invalid-threshold message and abort; the train command performs no
work (`train_model.train` is never invoked) and the validation command
never triggers retraining (`run_makefile` and `train_model.train` are
never invoked) — but the validation command has already invoked
`validation_model.validate()` before its threshold check. -/
theorem C1_invalid_threshold_aborts (th : ℚ) (h : ¬ (0 ≤ th ∧ th ≤ 1))
    (models : List String) (score : ℚ) :
    train_cmd models (some th) = [Event.echo invalidThresholdMsg, Event.abortCmd] ∧
    (∀ ms t, Event.trainCall ms t ∉ train_cmd models (some th)) ∧
    validation_cmd (some th) score =
      [Event.validateCall, Event.echo invalidThresholdMsg, Event.abortCmd] ∧
    (∀ t, Event.runMakefileCall t ∉ validation_cmd (some th) score) ∧
    (∀ ms t, Event.trainCall ms t ∉ validation_cmd (some th) score) ∧
    Event.validateCall ∈ validation_cmd (some th) score := by
  simp only [train_cmd, validation_cmd]
  rw [if_neg h, if_neg h]
  refine ⟨rfl, ?_, rfl, ?_, ?_, ?_⟩ <;> simp

/-- Witness for C1 (amended): threshold 2, one model, score 0. -/
theorem C1_invalid_threshold_aborts_witness :
    train_cmd ["random_forest"] (some 2) =
      [Event.echo invalidThresholdMsg, Event.abortCmd] ∧
    (∀ ms t, Event.trainCall ms t ∉ train_cmd ["random_forest"] (some 2)) ∧
    validation_cmd (some 2) 0 =
      [Event.validateCall, Event.echo invalidThresholdMsg, Event.abortCmd] ∧
    (∀ t, Event.runMakefileCall t ∉ validation_cmd (some 2) 0) ∧
    (∀ ms t, Event.trainCall ms t ∉ validation_cmd (some 2) 0) ∧
    Event.validateCall ∈ validation_cmd (some 2) 0 :=
  C1_invalid_threshold_aborts 2 (by norm_num) ["random_forest"] 0

/-- C8: when run-sql reaches the database phase (the file exists), a
failing `connect()` or query is caught and echoed rather than propagated
(the trace never aborts or exits there), and `close()` is always the last
action of the command. -/
theorem C8_run_sql_catches_errors_and_closes (fs : String → Option String)
    (db : DbBehavior) (sql_file content : String)
    (hfile : fs sql_file = some content) :
    (run_sql_file fs db sql_file).getLast? = some Event.closeCall ∧
    (∀ e, db.connectErr = some e →
      Event.echo ("Error executing SQL: " ++ e) ∈ run_sql_file fs db sql_file) ∧
    (∀ e, db.connectErr = none → db.fetchRes content = .error e →
      Event.echo ("Error executing SQL: " ++ e) ∈ run_sql_file fs db sql_file) ∧
    Event.exitCmd ∉ run_sql_file fs db sql_file ∧
    Event.abortCmd ∉ run_sql_file fs db sql_file := by
  cases hc : db.connectErr with
  | some e0 =>
    simp only [run_sql_file, hfile, hc]
    refine ⟨rfl, ?_, ?_, ?_, ?_⟩
    · intro e he
      injection he with he
      subst he
      simp
    · intro e he
      exact Option.noConfusion he
    · simp
    · simp
  | none =>
    cases hf : db.fetchRes content with
    | error e0 =>
      simp only [run_sql_file, hfile, hc, hf]
      refine ⟨rfl, ?_, ?_, ?_, ?_⟩
      · intro e he
        exact Option.noConfusion he
      · intro e _ he
        injection he with he
        subst he
        simp
      · simp
      · simp
    | ok data =>
      simp only [run_sql_file, hfile, hc, hf]
      refine ⟨rfl, ?_, ?_, ?_, ?_⟩
      · intro e he
        exact Option.noConfusion he
      · intro e _ he
        exact Except.noConfusion he
      · simp
      · simp

/-- Witness for C8: an existing file and a database whose query fails. -/
theorem C8_run_sql_catches_errors_and_closes_witness :
    (run_sql_file (fun _ => some "SELECT 1") ⟨none, fun _ => .error "boom"⟩
      "f.sql").getLast? = some Event.closeCall ∧
    (∀ e, (⟨none, fun _ => .error "boom"⟩ : DbBehavior).connectErr = some e →
      Event.echo ("Error executing SQL: " ++ e) ∈
        run_sql_file (fun _ => some "SELECT 1") ⟨none, fun _ => .error "boom"⟩
          "f.sql") ∧
    (∀ e, (⟨none, fun _ => .error "boom"⟩ : DbBehavior).connectErr = none →
      (⟨none, fun _ => .error "boom"⟩ : DbBehavior).fetchRes "SELECT 1" = .error e →
      Event.echo ("Error executing SQL: " ++ e) ∈
        run_sql_file (fun _ => some "SELECT 1") ⟨none, fun _ => .error "boom"⟩
          "f.sql") ∧
    Event.exitCmd ∉
      run_sql_file (fun _ => some "SELECT 1") ⟨none, fun _ => .error "boom"⟩
        "f.sql" ∧
    Event.abortCmd ∉
      run_sql_file (fun _ => some "SELECT 1") ⟨none, fun _ => .error "boom"⟩
        "f.sql" :=
  C8_run_sql_catches_errors_and_closes (fun _ => some "SELECT 1")
    ⟨none, fun _ => .error "boom"⟩ "f.sql" "SELECT 1" rfl

/-- C9: a run-sql invocation whose path names no existing file echoes a
file-not-found message and exits before any database work: no connection
is opened and no query is executed. -/
theorem C9_run_sql_missing_file_exits_early (fs : String → Option String)
    (db : DbBehavior) (sql_file : String) (h : fs sql_file = none) :
    run_sql_file fs db sql_file =
      [Event.echo ("Error: File " ++ sql_file ++ " does not exist."),
       Event.exitCmd] ∧
    Event.connectCall ∉ run_sql_file fs db sql_file ∧
    (∀ q, Event.fetchCall q ∉ run_sql_file fs db sql_file) ∧
    Event.closeCall ∉ run_sql_file fs db sql_file := by
  have heq : run_sql_file fs db sql_file =
      [Event.echo ("Error: File " ++ sql_file ++ " does not exist."),
       Event.exitCmd] := by
    simp only [run_sql_file, h]
  refine ⟨heq, ?_, ?_, ?_⟩
  · rw [heq]
    simp
  · intro q
    rw [heq]
    simp
  · rw [heq]
    simp

/-- Witness for C9: an always-empty filesystem. -/
theorem C9_run_sql_missing_file_exits_early_witness :
    run_sql_file (fun _ => none) ⟨none, fun _ => .ok "x"⟩ "missing.sql" =
      [Event.echo ("Error: File " ++ "missing.sql" ++ " does not exist."),
       Event.exitCmd] ∧
    Event.connectCall ∉
      run_sql_file (fun _ => none) ⟨none, fun _ => .ok "x"⟩ "missing.sql" ∧
    (∀ q, Event.fetchCall q ∉
      run_sql_file (fun _ => none) ⟨none, fun _ => .ok "x"⟩ "missing.sql") ∧
    Event.closeCall ∉
      run_sql_file (fun _ => none) ⟨none, fun _ => .ok "x"⟩ "missing.sql" :=
  C9_run_sql_missing_file_exits_early (fun _ => none) ⟨none, fun _ => .ok "x"⟩
    "missing.sql" rfl

/-- C3: for every pair of categorical columns with 3 observed categories
each, one-hot expansion yields exactly one output column name per
observed category per input column — 6 in total — named
`<column><category-index>`, in that order. -/
theorem C3_one_hot_column_names (df : DataFrame) (c1 c2 : String)
    (v1 v2 : List Value)
    (h1 : getCol df c1 = some v1) (h2 : getCol df c2 = some v2)
    (hc1 : countDistinct v1 = 3) (hc2 : countDistinct v2 = 3) :
    columns_after_processing df [c1, c2] =
      [c1 ++ "0", c1 ++ "1", c1 ++ "2", c2 ++ "0", c2 ++ "1", c2 ++ "2"] := by
  have e1 : (getCol df c1).getD [] = v1 := by rw [h1]; rfl
  have e2 : (getCol df c2).getD [] = v2 := by rw [h2]; rfl
  have hrange : List.range 3 = [0, 1, 2] := rfl
  have t0 : toString (0 : Nat) = "0" := rfl
  have t1 : toString (1 : Nat) = "1" := rfl
  have t2 : toString (2 : Nat) = "2" := rfl
  unfold columns_after_processing
  rw [List.flatMap_cons, List.flatMap_cons, List.flatMap_nil, e1, e2, hc1, hc2,
    hrange]
  simp [t0, t1, t2]

/-- Witness for C3: the two three-category columns from the repository's
test (`A B A C B` and `X Y Z X Y`). -/
theorem C3_one_hot_column_names_witness :
    columns_after_processing
      ⟨[("CategoricalFeature1",
          [Value.str "A", Value.str "B", Value.str "A", Value.str "C",
           Value.str "B"]),
        ("CategoricalFeature2",
          [Value.str "X", Value.str "Y", Value.str "Z", Value.str "X",
           Value.str "Y"])]⟩
      ["CategoricalFeature1", "CategoricalFeature2"] =
      ["CategoricalFeature1" ++ "0", "CategoricalFeature1" ++ "1",
       "CategoricalFeature1" ++ "2", "CategoricalFeature2" ++ "0",
       "CategoricalFeature2" ++ "1", "CategoricalFeature2" ++ "2"] :=
  C3_one_hot_column_names
    ⟨[("CategoricalFeature1",
        [Value.str "A", Value.str "B", Value.str "A", Value.str "C",
         Value.str "B"]),
      ("CategoricalFeature2",
        [Value.str "X", Value.str "Y", Value.str "Z", Value.str "X",
         Value.str "Y"])]⟩
    "CategoricalFeature1" "CategoricalFeature2"
    [Value.str "A", Value.str "B", Value.str "A", Value.str "C", Value.str "B"]
    [Value.str "X", Value.str "Y", Value.str "Z", Value.str "X", Value.str "Y"]
    rfl rfl rfl rfl

/-- C6: the column transformer built from one numeric, one ordinal and one
categorical column with 2 observed categories maps an input frame with
`N` (= 3) columns and `R` rows to `N + 1` output columns, each of exactly
`R` rows. -/
theorem C6_column_transformer_shape (df : DataFrame) (n o c : String)
    (vn vo vc : List Value) (R : Nat)
    (hn : getCol df n = some vn) (ho : getCol df o = some vo)
    (hc : getCol df c = some vc)
    (hrect : Rect df R)
    (hN : df.cols.length = 3)
    (hcat : countDistinct vc = 2) :
    ∃ out, column_transformer [n] [o] [c] df = some out ∧
      out.length = df.cols.length + 1 ∧
      ∀ col ∈ out, col.length = R := by
  have hvn : vn.length = R := getCol_length_of_rect df n vn R hn hrect
  have hvo : vo.length = R := getCol_length_of_rect df o vo R ho hrect
  have hvc : vc.length = R := getCol_length_of_rect df c vc R hc hrect
  refine ⟨[vn] ++ [vo] ++ [vc].flatMap one_hot, ?_, ?_, ?_⟩
  · unfold column_transformer
    simp only [selectCols, hn, ho, hc]
  · have : ([vc].flatMap one_hot).length = 2 := by
      simp only [List.flatMap_cons, List.flatMap_nil, List.append_nil, one_hot,
        List.length_map]
      exact hcat
    simp only [List.length_append, List.length_cons, List.length_nil, this, hN]
  · intro col hcol
    simp only [List.flatMap_cons, List.flatMap_nil, List.append_nil, one_hot,
      List.mem_append, List.mem_cons, List.not_mem_nil, or_false,
      List.mem_map] at hcol
    rcases hcol with (hcol | hcol) | ⟨cat, _, hcol⟩
    · rw [hcol]
      exact hvn
    · rw [hcol]
      exact hvo
    · rw [← hcol, List.length_map]
      exact hvc

/-- Witness for C6: the three-column five-row frame from the repository's
test (`num1`, `ord1`, `cat1` with categories `a`, `b`). -/
theorem C6_column_transformer_shape_witness :
    ∃ out, column_transformer ["num1"] ["ord1"] ["cat1"]
        ⟨[("num1", [Value.int 1, Value.int 2, Value.int 3, Value.int 4,
            Value.int 5]),
          ("ord1", [Value.int 1, Value.int 0, Value.int 1, Value.int 0,
            Value.int 1]),
          ("cat1", [Value.str "a", Value.str "b", Value.str "a", Value.str "b",
            Value.str "a"])]⟩ = some out ∧
      out.length =
        (DataFrame.mk [("num1", [Value.int 1, Value.int 2, Value.int 3,
            Value.int 4, Value.int 5]),
          ("ord1", [Value.int 1, Value.int 0, Value.int 1, Value.int 0,
            Value.int 1]),
          ("cat1", [Value.str "a", Value.str "b", Value.str "a", Value.str "b",
            Value.str "a"])]).cols.length + 1 ∧
      ∀ col ∈ out, col.length = 5 :=
  C6_column_transformer_shape
    ⟨[("num1", [Value.int 1, Value.int 2, Value.int 3, Value.int 4,
        Value.int 5]),
      ("ord1", [Value.int 1, Value.int 0, Value.int 1, Value.int 0,
        Value.int 1]),
      ("cat1", [Value.str "a", Value.str "b", Value.str "a", Value.str "b",
        Value.str "a"])]⟩
    "num1" "ord1" "cat1"
    [Value.int 1, Value.int 2, Value.int 3, Value.int 4, Value.int 5]
    [Value.int 1, Value.int 0, Value.int 1, Value.int 0, Value.int 1]
    [Value.str "a", Value.str "b", Value.str "a", Value.str "b", Value.str "a"]
    5 rfl rfl rfl (by unfold Rect; decide) rfl rfl

/-- C7: the model pipeline factory applied to a registry of 2 named
estimators returns a mapping with exactly 2 entries, keyed by the
estimator names, each chaining the shared processing stage with that
estimator. -/
theorem C7_model_pipeline_factory_two_entries (processing : MlPipeline)
    (m1 m2 : ModelEntry) (hne : m1.name ≠ m2.name) :
    build_create_model_pipeline processing [m1, m2] =
      [(m1.name, ⟨processing.steps ++ [Stage.estimator m1.model]⟩),
       (m2.name, ⟨processing.steps ++ [Stage.estimator m2.model]⟩)] ∧
    (build_create_model_pipeline processing [m1, m2]).length = 2 := by
  have heq : build_create_model_pipeline processing [m1, m2] =
      [(m1.name, ⟨processing.steps ++ [Stage.estimator m1.model]⟩),
       (m2.name, ⟨processing.steps ++ [Stage.estimator m2.model]⟩)] := by
    unfold build_create_model_pipeline
    simp [dictInsert, hne]
  exact ⟨heq, by simp [heq]⟩

/-- Witness for C7: the two dummy-classifier entries from the
repository's test. -/
theorem C7_model_pipeline_factory_two_entries_witness :
    build_create_model_pipeline ⟨[]⟩
      [⟨"random_forest", "DummyClassifier",
        [("strategy", ["uniform", "constant"])]⟩,
       ⟨"logistic_regression", "DummyClassifier",
        [("strategy", ["most_frequent", "stratified"])]⟩] =
      [("random_forest",
        ⟨(MlPipeline.mk []).steps ++ [Stage.estimator "DummyClassifier"]⟩),
       ("logistic_regression",
        ⟨(MlPipeline.mk []).steps ++ [Stage.estimator "DummyClassifier"]⟩)] ∧
    (build_create_model_pipeline ⟨[]⟩
      [⟨"random_forest", "DummyClassifier",
        [("strategy", ["uniform", "constant"])]⟩,
       ⟨"logistic_regression", "DummyClassifier",
        [("strategy", ["most_frequent", "stratified"])]⟩]).length = 2 :=
  C7_model_pipeline_factory_two_entries ⟨[]⟩
    ⟨"random_forest", "DummyClassifier", [("strategy", ["uniform", "constant"])]⟩
    ⟨"logistic_regression", "DummyClassifier",
      [("strategy", ["most_frequent", "stratified"])]⟩
    (by decide)

end MLE2E
